import Mathlib

/-!
Shallow embedding of the data models declared in src/app/models.py of the
pacman-classic-redux repository, together with the tick-level rules that the
specification describes for the simulation core (which is not present in the
source tree).  Pydantic Field constraints (ge/le bounds, max_length) are
embedded as executable isValid predicates; python int becomes Int, Decimal
becomes Rat, datetime becomes a Nat timestamp, and Dict becomes an
association list whose keys a python dict keeps unique.
-/

namespace Pacman

/-- GameState enum from src/app/models.py. -/
inductive GameState
  | ready
  | playing
  | paused
  | game_over
  | level_complete
deriving DecidableEq, Repr

/-- GhostType enum from src/app/models.py: the four fixed ghost personalities. -/
inductive GhostType
  | blinky
  | pinky
  | inky
  | clyde
deriving DecidableEq, Repr

/-- GhostMode enum from src/app/models.py. -/
inductive GhostMode
  | normal
  | vulnerable
  | eaten
  | returning
deriving DecidableEq, Repr

/-- Direction enum from src/app/models.py. -/
inductive Direction
  | up
  | down
  | left
  | right
  | none
deriving DecidableEq, Repr

/-- CellType enum from src/app/models.py. -/
inductive CellType
  | empty
  | wall
  | dot
  | power_pellet
  | tunnel
  | ghost_house
deriving DecidableEq, Repr

/-- Position from src/app/models.py: x and y are python ints with ge=0. -/
structure Position where
  x : Int
  y : Int
deriving DecidableEq, Repr

/-- Pydantic validation of Position: both coordinates must be at least 0. -/
def Position.isValid (p : Position) : Bool :=
  decide (0 ≤ p.x) && decide (0 ≤ p.y)

/-- Pydantic validation of Position on numeric input: the int fields accept a
number only when it has no fractional part (pydantic rejects a float with a
fractional part for an int field) and the ge=0 bounds hold.  Rationals with
denominator 1 model integral numeric input. -/
def Position.validate (x y : Rat) : Option Position :=
  if x.den = 1 ∧ y.den = 1 ∧ 0 ≤ x ∧ 0 ≤ y then
    some { x := x.num, y := y.num }
  else
    Option.none

/-- PacmanState from src/app/models.py. -/
structure PacmanState where
  position : Position
  direction : Direction
  next_direction : Direction
  speed : Rat
  lives : Int
  invulnerable_until : Option Nat
deriving DecidableEq, Repr

/-- PacmanState with the source defaults (direction NONE, next NONE,
speed Decimal 1.0, lives 3, invulnerable_until None) for a given required
position. -/
def PacmanState.mkDefault (pos : Position) : PacmanState :=
  { position := pos
    direction := Direction.none
    next_direction := Direction.none
    speed := 1
    lives := 3
    invulnerable_until := Option.none }

/-- Pydantic validation of PacmanState: the nested position validates and
lives satisfies ge=0, le=5. -/
def PacmanState.isValid (p : PacmanState) : Bool :=
  p.position.isValid && decide (0 ≤ p.lives) && decide (p.lives ≤ 5)

/-- GhostStateModel from src/app/models.py. -/
structure GhostStateModel where
  ghost_type : GhostType
  position : Position
  direction : Direction
  state : GhostMode
  target_position : Option Position
  speed : Rat
  vulnerable_until : Option Nat
  house_exit_time : Option Nat
deriving DecidableEq, Repr

/-- GhostStateModel with the source defaults (direction UP, state NORMAL,
target None, speed Decimal 0.8, timers None) for the required ghost_type and
position. -/
def GhostStateModel.mkDefault (g : GhostType) (pos : Position) : GhostStateModel :=
  { ghost_type := g
    position := pos
    direction := Direction.up
    state := GhostMode.normal
    target_position := Option.none
    speed := mkRat 4 5
    vulnerable_until := Option.none
    house_exit_time := Option.none }

/-- Pydantic validation of GhostStateModel: nested positions validate. -/
def GhostStateModel.isValid (g : GhostStateModel) : Bool :=
  g.position.isValid &&
    (match g.target_position with
     | Option.none => true
     | some p => p.isValid)

/-- MazeLayout from src/app/models.py.  ghost_spawn_positions is a python
dict keyed by GhostType, embedded as an association list. -/
structure MazeLayout where
  width : Int
  height : Int
  cells : List (List CellType)
  pacman_start : Position
  ghost_house_center : Position
  ghost_spawn_positions : List (GhostType × Position)
  tunnel_positions : List (Position × Position)
  total_dots : Int
  total_power_pellets : Int
deriving DecidableEq, Repr

/-- Pydantic validation of MazeLayout: width and height in [10,50], nested
positions validate, dict keys are unique (a python dict cannot repeat a key),
and the dot and pellet totals satisfy ge=0. -/
def MazeLayout.isValid (m : MazeLayout) : Bool :=
  decide (10 ≤ m.width) && decide (m.width ≤ 50) &&
    decide (10 ≤ m.height) && decide (m.height ≤ 50) &&
    m.pacman_start.isValid && m.ghost_house_center.isValid &&
    decide ((m.ghost_spawn_positions.map Prod.fst).Nodup) &&
    m.ghost_spawn_positions.all (fun gp => gp.2.isValid) &&
    m.tunnel_positions.all (fun pq => pq.1.isValid && pq.2.isValid) &&
    decide (0 ≤ m.total_dots) && decide (0 ≤ m.total_power_pellets)

/-- MazeLayout built with the source defaults for the defaulted fields
(cells [], tunnel_positions [], total_dots 0, total_power_pellets 0), origin
positions and an empty spawn dict for the required fields, and the given
width and height. -/
def MazeLayout.build (w h : Int) : MazeLayout :=
  { width := w
    height := h
    cells := []
    pacman_start := { x := 0, y := 0 }
    ghost_house_center := { x := 0, y := 0 }
    ghost_spawn_positions := []
    tunnel_positions := []
    total_dots := 0
    total_power_pellets := 0 }

/-- GameScore from src/app/models.py. -/
structure GameScore where
  current_score : Int
  dots_eaten : Int
  power_pellets_eaten : Int
  ghosts_eaten : Int
  ghost_combo_multiplier : Int
  bonus_points : Int
deriving DecidableEq, Repr

/-- GameScore with the source defaults: all counters 0, combo multiplier 1. -/
def GameScore.mkDefault : GameScore :=
  { current_score := 0
    dots_eaten := 0
    power_pellets_eaten := 0
    ghosts_eaten := 0
    ghost_combo_multiplier := 1
    bonus_points := 0 }

/-- Pydantic validation of GameScore: counters ge=0 and the combo
multiplier in [1,4]. -/
def GameScore.isValid (s : GameScore) : Bool :=
  decide (0 ≤ s.current_score) && decide (0 ≤ s.dots_eaten) &&
    decide (0 ≤ s.power_pellets_eaten) && decide (0 ≤ s.ghosts_eaten) &&
    decide (1 ≤ s.ghost_combo_multiplier) && decide (s.ghost_combo_multiplier ≤ 4) &&
    decide (0 ≤ s.bonus_points)

/-- PowerPelletEffect from src/app/models.py. -/
structure PowerPelletEffect where
  is_active : Bool
  started_at : Option Nat
  duration_seconds : Int
  ghosts_eaten_during : Int
deriving DecidableEq, Repr

/-- PowerPelletEffect with the source defaults: inactive, no start time,
duration 10, no ghosts eaten. -/
def PowerPelletEffect.mkDefault : PowerPelletEffect :=
  { is_active := false
    started_at := Option.none
    duration_seconds := 10
    ghosts_eaten_during := 0 }

/-- Pydantic validation of PowerPelletEffect: duration_seconds in [5,30]
and ghosts_eaten_during in [0,4]. -/
def PowerPelletEffect.isValid (e : PowerPelletEffect) : Bool :=
  decide (5 ≤ e.duration_seconds) && decide (e.duration_seconds ≤ 30) &&
    decide (0 ≤ e.ghosts_eaten_during) && decide (e.ghosts_eaten_during ≤ 4)

/-- GameSession from src/app/models.py.  ghosts is a python dict keyed by
GhostType, embedded as an association list. -/
structure GameSession where
  game_id : Option Int
  state : GameState
  level : Int
  maze : MazeLayout
  pacman : PacmanState
  ghosts : List (GhostType × GhostStateModel)
  score : GameScore
  power_pellet_effect : PowerPelletEffect
  remaining_dots : Int
  remaining_power_pellets : Int
  level_start_time : Option Nat
  last_update_time : Option Nat
deriving DecidableEq, Repr

/-- GameSession with the source defaults (no game id, state READY, level 1,
remaining counts 0, no timestamps) for the required maze, pacman, ghosts,
score and power pellet effect. -/
def GameSession.mkDefault (maze : MazeLayout) (pacman : PacmanState)
    (ghosts : List (GhostType × GhostStateModel)) (score : GameScore)
    (eff : PowerPelletEffect) : GameSession :=
  { game_id := Option.none
    state := GameState.ready
    level := 1
    maze := maze
    pacman := pacman
    ghosts := ghosts
    score := score
    power_pellet_effect := eff
    remaining_dots := 0
    remaining_power_pellets := 0
    level_start_time := Option.none
    last_update_time := Option.none }

/-- Pydantic validation of GameSession: level ge=1, every nested model
validates, the ghosts dict has unique keys, and the remaining counts are
ge=0. -/
def GameSession.isValid (s : GameSession) : Bool :=
  decide (1 ≤ s.level) && s.maze.isValid && s.pacman.isValid &&
    decide ((s.ghosts.map Prod.fst).Nodup) &&
    s.ghosts.all (fun gg => gg.2.isValid) &&
    s.score.isValid && s.power_pellet_effect.isValid &&
    decide (0 ≤ s.remaining_dots) && decide (0 ≤ s.remaining_power_pellets)

/-- DifficultySettings from src/app/models.py.  Decimal speed fields are
embedded as rationals. -/
structure DifficultySettings where
  name : String
  pacman_speed : Rat
  ghost_speed : Rat
  power_pellet_duration : Int
  ghost_vulnerability_speed : Rat
  starting_lives : Int
  extra_life_threshold : Int
deriving DecidableEq, Repr

/-- Pydantic validation of DifficultySettings: name max_length 20,
pacman_speed in [0.5,2.0], ghost_speed in [0.3,1.8], power_pellet_duration
in [5,20], ghost_vulnerability_speed in [0.2,1.0], starting_lives in [1,5],
extra_life_threshold in [5000,50000]. -/
def DifficultySettings.isValid (d : DifficultySettings) : Bool :=
  decide (d.name.length ≤ 20) &&
    decide (mkRat 1 2 ≤ d.pacman_speed) && decide (d.pacman_speed ≤ 2) &&
    decide (mkRat 3 10 ≤ d.ghost_speed) && decide (d.ghost_speed ≤ mkRat 9 5) &&
    decide (5 ≤ d.power_pellet_duration) && decide (d.power_pellet_duration ≤ 20) &&
    decide (mkRat 1 5 ≤ d.ghost_vulnerability_speed) && decide (d.ghost_vulnerability_speed ≤ 1) &&
    decide (1 ≤ d.starting_lives) && decide (d.starting_lives ≤ 5) &&
    decide (5000 ≤ d.extra_life_threshold) && decide (d.extra_life_threshold ≤ 50000)

/-- ScoreValues from src/app/models.py. -/
structure ScoreValues where
  dot_points : Int
  power_pellet_points : Int
  ghost_base_points : Int
  bonus_fruit_points : List (String × Int)
deriving DecidableEq, Repr

/-- ScoreValues with the source defaults: dot 10, power pellet 50, ghost
base 200, and the default bonus fruit table. -/
def ScoreValues.mkDefault : ScoreValues :=
  { dot_points := 10
    power_pellet_points := 50
    ghost_base_points := 200
    bonus_fruit_points :=
      [("cherry", 100), ("strawberry", 300), ("orange", 500), ("apple", 700),
       ("melon", 1000), ("galaxian", 2000), ("bell", 3000), ("key", 5000)] }

/-- Pydantic validation of ScoreValues: dot_points ge=1,
power_pellet_points ge=10, ghost_base_points ge=100. -/
def ScoreValues.isValid (v : ScoreValues) : Bool :=
  decide (1 ≤ v.dot_points) && decide (10 ≤ v.power_pellet_points) &&
    decide (100 ≤ v.ghost_base_points)

/-- Modelled from the spec: the repository ships no simulation core, so the
observable per-tick events of section 4.4 and 4.5 of the spec (dot eaten,
power pellet eaten, vulnerable ghost eaten, power pellet countdown expiring,
or nothing of note) are embedded as an event alphabet. -/
inductive Event
  | eatDot
  | eatPowerPellet
  | eatGhost
  | pelletExpire
  | idle
deriving DecidableEq, Repr

/-- Modelled from the spec: the Collision and Scoring Resolver credits an
eaten ghost with base_points times 2 to the power (combo - 1). -/
def ghostEatScore (sv : ScoreValues) (combo : Int) : Int :=
  sv.ghost_base_points * 2 ^ (combo - 1).toNat

/-- Modelled from the spec: consuming a power pellet makes the effect active
with the duration taken from the difficulty settings and a fresh count of
ghosts eaten during the activation. -/
def PowerPelletEffect.activate (d : Int) (startedAt : Option Nat) : PowerPelletEffect :=
  { is_active := true
    started_at := startedAt
    duration_seconds := d
    ghosts_eaten_during := 0 }

/-- Modelled from the spec: all ghosts currently in normal mode become
vulnerable when a power pellet is consumed. -/
def vulnerableAll (gs : List (GhostType × GhostStateModel)) :
    List (GhostType × GhostStateModel) :=
  gs.map (fun gg =>
    if gg.2.state = GhostMode.normal then
      (gg.1, { gg.2 with state := GhostMode.vulnerable })
    else gg)

/-- Modelled from the spec: when the power pellet countdown expires,
vulnerable ghosts that were not eaten revert to normal mode. -/
def normalAll (gs : List (GhostType × GhostStateModel)) :
    List (GhostType × GhostStateModel) :=
  gs.map (fun gg =>
    if gg.2.state = GhostMode.vulnerable then
      (gg.1, { gg.2 with state := GhostMode.normal })
    else gg)

/-- Modelled from the spec: one simulation tick of the missing core, reduced
to its scoring- and dot-relevant effect for the observed event.  Eating a dot
consumes one remaining dot and credits dot_points; eating a power pellet
activates the effect with the difficulty duration and resets the combo
multiplier to 1 (section 4.4); eating a ghost while the effect is active
credits base times 2 to the power (combo - 1) and increments the combo,
capped at 4; expiry deactivates the effect and resets the combo to 1
(section 4.5). -/
def tick (ds : DifficultySettings) (sv : ScoreValues) (e : Event)
    (s : GameSession) : GameSession :=
  match e with
  | Event.eatDot =>
    if 0 < s.remaining_dots then
      { s with
        remaining_dots := s.remaining_dots - 1
        score := { s.score with
          dots_eaten := s.score.dots_eaten + 1
          current_score := s.score.current_score + sv.dot_points } }
    else s
  | Event.eatPowerPellet =>
    if 0 < s.remaining_power_pellets then
      { s with
        remaining_power_pellets := s.remaining_power_pellets - 1
        score := { s.score with
          power_pellets_eaten := s.score.power_pellets_eaten + 1
          current_score := s.score.current_score + sv.power_pellet_points
          ghost_combo_multiplier := 1 }
        power_pellet_effect :=
          PowerPelletEffect.activate ds.power_pellet_duration s.last_update_time
        ghosts := vulnerableAll s.ghosts }
    else s
  | Event.eatGhost =>
    if s.power_pellet_effect.is_active then
      { s with
        score := { s.score with
          ghosts_eaten := s.score.ghosts_eaten + 1
          current_score :=
            s.score.current_score + ghostEatScore sv s.score.ghost_combo_multiplier
          ghost_combo_multiplier := min (s.score.ghost_combo_multiplier + 1) 4 }
        power_pellet_effect := { s.power_pellet_effect with
          ghosts_eaten_during := min (s.power_pellet_effect.ghosts_eaten_during + 1) 4 } }
    else s
  | Event.pelletExpire =>
    if s.power_pellet_effect.is_active then
      { s with
        power_pellet_effect := { s.power_pellet_effect with is_active := false }
        score := { s.score with ghost_combo_multiplier := 1 }
        ghosts := normalAll s.ghosts }
    else s
  | Event.idle => s

/-- Modelled from the spec: session creation at level start puts the
session in the ready state at level 1, places Pac-Man at the maze spawn with
the difficulty starting lives, creates one ghost per spawn entry in its
default state, resets the score and the power pellet effect, and initialises
the remaining dot and pellet counts from the maze totals. -/
def createSession (maze : MazeLayout) (ds : DifficultySettings) : GameSession :=
  { game_id := Option.none
    state := GameState.ready
    level := 1
    maze := maze
    pacman := { PacmanState.mkDefault maze.pacman_start with
      speed := ds.pacman_speed
      lives := ds.starting_lives }
    ghosts := maze.ghost_spawn_positions.map
      (fun gp => (gp.1, GhostStateModel.mkDefault gp.1 gp.2))
    score := GameScore.mkDefault
    power_pellet_effect := PowerPelletEffect.mkDefault
    remaining_dots := maze.total_dots
    remaining_power_pellets := maze.total_power_pellets
    level_start_time := Option.none
    last_update_time := Option.none }

/-- Runs a sequence of ticks. -/
def runEvents (ds : DifficultySettings) (sv : ScoreValues)
    (evs : List Event) (s : GameSession) : GameSession :=
  evs.foldl (fun t e => tick ds sv e t) s

/-- A concrete valid difficulty configuration used in witnesses. -/
def dsNormal : DifficultySettings :=
  { name := "normal"
    pacman_speed := 1
    ghost_speed := 1
    power_pellet_duration := 8
    ghost_vulnerability_speed := mkRat 1 2
    starting_lives := 3
    extra_life_threshold := 10000 }

/-- A concrete valid maze with no ghost spawn entries. -/
def maze0 : MazeLayout :=
  { MazeLayout.build 19 21 with total_dots := 5, total_power_pellets := 2 }

/-- A concrete valid maze with one spawn entry per personality. -/
def maze4 : MazeLayout :=
  { MazeLayout.build 19 21 with
    total_dots := 5
    total_power_pellets := 2
    ghost_spawn_positions :=
      [(GhostType.blinky, { x := 9, y := 9 }), (GhostType.pinky, { x := 9, y := 10 }),
       (GhostType.inky, { x := 8, y := 10 }), (GhostType.clyde, { x := 10, y := 10 })] }

/-- The session after one power pellet is consumed: the effect is active and
the combo multiplier is 1. -/
def sessionActive : GameSession :=
  runEvents dsNormal ScoreValues.mkDefault [Event.eatPowerPellet]
    (createSession maze0 dsNormal)

/-- The session after a power pellet and one ghost eat: the effect is still
active and the combo multiplier is 2. -/
def sessionCombo2 : GameSession :=
  runEvents dsNormal ScoreValues.mkDefault [Event.eatPowerPellet, Event.eatGhost]
    (createSession maze0 dsNormal)

/-- The number of ghost entries stored for a personality in a ghosts dict. -/
def countKey (g : GhostType) (l : List (GhostType × GhostStateModel)) : Nat :=
  (l.filter (fun gg => gg.1 == g)).length

/-- The claim that the combo multiplier becomes 1 from a different value in
a tick exactly when that tick turns the power pellet effect from active to
inactive. -/
def comboResetExactlyAtDeactivation (ds : DifficultySettings) (sv : ScoreValues) : Prop :=
  ∀ (e : Event) (s : GameSession),
    ((tick ds sv e s).score.ghost_combo_multiplier = 1 ∧
      s.score.ghost_combo_multiplier ≠ 1) ↔
    (s.power_pellet_effect.is_active = true ∧
      (tick ds sv e s).power_pellet_effect.is_active = false)

/-- A tick never changes the maze. -/
theorem tick_maze_eq (ds : DifficultySettings) (sv : ScoreValues) (e : Event)
    (s : GameSession) : (tick ds sv e s).maze = s.maze := by
  cases e <;> simp only [tick] <;> (try split) <;> rfl

/-- A tick preserves the sum of remaining dots and eaten dots. -/
theorem tick_dots_sum (ds : DifficultySettings) (sv : ScoreValues) (e : Event)
    (s : GameSession) :
    (tick ds sv e s).remaining_dots + (tick ds sv e s).score.dots_eaten =
      s.remaining_dots + s.score.dots_eaten := by
  cases e <;> simp only [tick] <;> (try split) <;> (try rfl)
  simp

/-- A sequence of ticks preserves the sum of remaining dots and eaten dots. -/
theorem runEvents_dots_sum (ds : DifficultySettings) (sv : ScoreValues)
    (evs : List Event) (s : GameSession) :
    (runEvents ds sv evs s).remaining_dots +
      (runEvents ds sv evs s).score.dots_eaten =
      s.remaining_dots + s.score.dots_eaten := by
  induction evs generalizing s with
  | nil => rfl
  | cons e evs ih =>
    show (runEvents ds sv evs (tick ds sv e s)).remaining_dots +
        (runEvents ds sv evs (tick ds sv e s)).score.dots_eaten = _
    rw [ih]
    exact tick_dots_sum ds sv e s

/-- Keys of a ghosts dict being unique bounds each personality count by 1. -/
theorem countKey_le_one (g : GhostType) (l : List (GhostType × GhostStateModel))
    (h : (l.map Prod.fst).Nodup) : countKey g l ≤ 1 := by
  induction l with
  | nil => simp [countKey]
  | cons a t ih =>
    rw [List.map_cons, List.nodup_cons] at h
    rcases h with ⟨ha, ht⟩
    by_cases hg : a.1 = g
    · have htz : (t.filter (fun gg => gg.1 == g)).length = 0 := by
        rw [List.length_eq_zero, List.filter_eq_nil_iff]
        intro x hx hxg
        apply ha
        have hx1 : x.1 ∈ t.map Prod.fst := List.mem_map_of_mem Prod.fst hx
        have hxg1 : x.1 = g := by simpa using hxg
        rw [hg, ← hxg1]
        exact hx1
      simp [countKey, List.filter_cons, hg, htz]
    · have hgb : (a.1 == g) = false := by simpa using hg
      simp only [countKey, List.filter_cons, hgb, Bool.false_eq_true, if_false]
      exact ih ht

/-- C1: after any sequence of simulation ticks from a freshly created
session, the number of remaining dots plus the number of dots eaten recorded
in the score equals the maze total dot count. -/
theorem dots_conservation (ds : DifficultySettings) (sv : ScoreValues)
    (maze : MazeLayout) (evs : List Event) :
    (runEvents ds sv evs (createSession maze ds)).remaining_dots +
      (runEvents ds sv evs (createSession maze ds)).score.dots_eaten =
      maze.total_dots := by
  rw [runEvents_dots_sum]
  simp [createSession, GameScore.mkDefault]

/-- C4 counterexample: the fractional coordinate 3/2 is rejected by Position
validation, so the Position type does not admit fractional values. -/
theorem position_fractional_rejected :
    Position.validate (mkRat 3 2) 0 = Option.none := by decide

/-- C4 amended: Position coordinates are integers; numeric input for a
Position validates exactly when both components are integral (denominator 1
as rationals) and nonnegative, so sub-cell fractional positions are not
representable. -/
theorem position_validate_integral (x y : Rat) :
    (Position.validate x y).isSome = true ↔
      (x.den = 1 ∧ y.den = 1 ∧ 0 ≤ x ∧ 0 ≤ y) := by
  unfold Position.validate
  split <;> simp_all

/-- C6: a MazeLayout validates only when width and height are both within
[10,50], and constructing one with the default remaining fields succeeds for
every width and height in that range. -/
theorem mazelayout_dimension_range :
    (∀ m : MazeLayout, m.isValid = true →
      10 ≤ m.width ∧ m.width ≤ 50 ∧ 10 ≤ m.height ∧ m.height ≤ 50) ∧
    (∀ w h : Int, 10 ≤ w → w ≤ 50 → 10 ≤ h → h ≤ 50 →
      (MazeLayout.build w h).isValid = true) := by
  constructor
  · intro m h
    simp [MazeLayout.isValid] at h
    tauto
  · intro w h h1 h2 h3 h4
    simp [MazeLayout.build, MazeLayout.isValid, Position.isValid]
    omega

/-- C6 witness: width 19 and height 21 are accepted and lie in range. -/
theorem mazelayout_dimension_range_witness :
    (10 ≤ (MazeLayout.build 19 21).width ∧ (MazeLayout.build 19 21).width ≤ 50 ∧
      10 ≤ (MazeLayout.build 19 21).height ∧ (MazeLayout.build 19 21).height ≤ 50) ∧
    (MazeLayout.build 19 21).isValid = true :=
  ⟨mazelayout_dimension_range.1 (MazeLayout.build 19 21)
      (mazelayout_dimension_range.2 19 21 (by decide) (by decide) (by decide) (by decide)),
    mazelayout_dimension_range.2 19 21 (by decide) (by decide) (by decide) (by decide)⟩

/-- C9: a valid Position has nonnegative coordinates, and any Position with
a negative coordinate is rejected by validation. -/
theorem position_nonneg :
    (∀ p : Position, p.isValid = true → 0 ≤ p.x ∧ 0 ≤ p.y) ∧
    (∀ p : Position, (p.x < 0 ∨ p.y < 0) → p.isValid = false) := by
  constructor
  · intro p h
    simp [Position.isValid] at h
    exact h
  · intro p h
    simp [Position.isValid]
    omega

/-- C9 witness: the position (3,4) is nonnegative and (-1,0) is rejected. -/
theorem position_nonneg_witness :
    (0 ≤ (Position.mk 3 4).x ∧ 0 ≤ (Position.mk 3 4).y) ∧
      (Position.mk (-1) 0).isValid = false :=
  ⟨position_nonneg.1 (Position.mk 3 4) (by decide),
    position_nonneg.2 (Position.mk (-1) 0) (Or.inl (by decide))⟩

/-- C10: a GameSession built with the source defaults starts in the ready
state at level 1, and a GhostStateModel built with the source defaults
starts in normal mode. -/
theorem default_initial_states :
    (∀ (maze : MazeLayout) (pacman : PacmanState)
        (ghosts : List (GhostType × GhostStateModel)) (score : GameScore)
        (eff : PowerPelletEffect),
      (GameSession.mkDefault maze pacman ghosts score eff).state = GameState.ready ∧
        (GameSession.mkDefault maze pacman ghosts score eff).level = 1) ∧
    (∀ (g : GhostType) (pos : Position),
      (GhostStateModel.mkDefault g pos).state = GhostMode.normal) :=
  ⟨fun _ _ _ _ _ => ⟨rfl, rfl⟩, fun _ _ => rfl⟩

/-- C5: a PowerPelletEffect validates only when its duration lies in [5,30],
and activating a power pellet with the duration of any valid difficulty
settings yields a valid effect. -/
theorem power_pellet_duration_compatible :
    (∀ e : PowerPelletEffect, e.isValid = true →
      5 ≤ e.duration_seconds ∧ e.duration_seconds ≤ 30) ∧
    (∀ (ds : DifficultySettings) (t : Option Nat), ds.isValid = true →
      (PowerPelletEffect.activate ds.power_pellet_duration t).isValid = true) := by
  constructor
  · intro e h
    simp [PowerPelletEffect.isValid] at h
    tauto
  · intro ds t h
    simp [DifficultySettings.isValid] at h
    simp [PowerPelletEffect.activate, PowerPelletEffect.isValid]
    omega

/-- C5 witness: the default effect has an in-range duration, and activating
with the duration of the concrete difficulty settings validates. -/
theorem power_pellet_duration_compatible_witness :
    (5 ≤ PowerPelletEffect.mkDefault.duration_seconds ∧
      PowerPelletEffect.mkDefault.duration_seconds ≤ 30) ∧
    (PowerPelletEffect.activate dsNormal.power_pellet_duration Option.none).isValid = true :=
  ⟨power_pellet_duration_compatible.1 PowerPelletEffect.mkDefault (by decide),
    power_pellet_duration_compatible.2 dsNormal Option.none (by decide)⟩

/-- C7: a valid PacmanState has lives in [0,5], and giving Pac-Man the
starting lives of any valid difficulty settings at a valid position yields a
valid PacmanState. -/
theorem pacman_lives_range :
    (∀ p : PacmanState, p.isValid = true → 0 ≤ p.lives ∧ p.lives ≤ 5) ∧
    (∀ (ds : DifficultySettings) (pos : Position), ds.isValid = true →
      pos.isValid = true →
      { PacmanState.mkDefault pos with lives := ds.starting_lives }.isValid = true) := by
  constructor
  · intro p h
    simp [PacmanState.isValid] at h
    tauto
  · intro ds pos h1 h2
    simp [DifficultySettings.isValid] at h1
    simp [PacmanState.isValid, PacmanState.mkDefault, h2]
    omega

/-- C7 witness: the default Pac-Man at the origin has in-range lives, and
the concrete difficulty settings give a valid Pac-Man. -/
theorem pacman_lives_range_witness :
    (0 ≤ (PacmanState.mkDefault (Position.mk 0 0)).lives ∧
      (PacmanState.mkDefault (Position.mk 0 0)).lives ≤ 5) ∧
    { PacmanState.mkDefault (Position.mk 0 0) with
      lives := dsNormal.starting_lives }.isValid = true :=
  ⟨pacman_lives_range.1 (PacmanState.mkDefault (Position.mk 0 0)) (by decide),
    pacman_lives_range.2 dsNormal (Position.mk 0 0) (by decide) (by decide)⟩

/-- C3 counterexample: a session created from a maze with no ghost spawn
entries validates while its ghosts dict has no entry for blinky, so a valid
session need not contain a ghost state for each of the four personalities. -/
theorem ghosts_not_all_personalities_required :
    (createSession maze0 dsNormal).isValid = true ∧
      countKey GhostType.blinky (createSession maze0 dsNormal).ghosts = 0 :=
  ⟨by decide, by decide⟩

/-- C3 amended: the ghosts mapping of a valid game session holds at most one
ghost state per personality (its keys are unique), but validation does not
require an entry for each of the four personalities. -/
theorem ghosts_at_most_one_per_personality :
    ∀ s : GameSession, s.isValid = true →
      ∀ g : GhostType, countKey g s.ghosts ≤ 1 := by
  intro s h g
  apply countKey_le_one
  simp [GameSession.isValid] at h
  tauto

/-- C3 witness: the session created from the four-ghost maze has at most
one blinky entry. -/
theorem ghosts_at_most_one_per_personality_witness :
    countKey GhostType.blinky (createSession maze4 dsNormal).ghosts ≤ 1 :=
  ghosts_at_most_one_per_personality (createSession maze4 dsNormal) (by decide)
    GhostType.blinky

/-- C2 counterexample: eating a second power pellet while one is active
resets the combo multiplier from 2 to 1 in a tick that leaves the effect
active, so the reset does not happen exactly when the effect transitions
from active to inactive. -/
theorem combo_reset_not_exactly_at_deactivation :
    ¬ comboResetExactlyAtDeactivation dsNormal ScoreValues.mkDefault := by
  intro h
  have h2 := (h Event.eatPowerPellet sessionCombo2).mp ⟨by decide, by decide⟩
  exact absurd h2.2 (by decide)

/-- C2 amended: in every valid game state the ghost combo multiplier lies in
[1,4], and a tick that turns the power pellet effect from active to inactive
always resets the multiplier to 1 (the reset is not exclusive to
deactivation, since the tick that consumes a power pellet also resets it). -/
theorem combo_range_and_reset_on_deactivation :
    (∀ s : GameSession, s.isValid = true →
      1 ≤ s.score.ghost_combo_multiplier ∧ s.score.ghost_combo_multiplier ≤ 4) ∧
    (∀ (ds : DifficultySettings) (sv : ScoreValues) (e : Event) (s : GameSession),
      s.power_pellet_effect.is_active = true →
      (tick ds sv e s).power_pellet_effect.is_active = false →
      (tick ds sv e s).score.ghost_combo_multiplier = 1) := by
  constructor
  · intro s h
    simp [GameSession.isValid, GameScore.isValid] at h
    tauto
  · intro ds sv e s h1 h2
    cases e <;> simp only [tick, h1] at h2 ⊢ <;>
      first
      | (split at h2 <;> simp_all [PowerPelletEffect.activate])
      | simp_all

/-- C2 witness: the concrete active session has an in-range multiplier, and
the expiry tick on it resets the multiplier to 1. -/
theorem combo_range_and_reset_on_deactivation_witness :
    (1 ≤ sessionActive.score.ghost_combo_multiplier ∧
      sessionActive.score.ghost_combo_multiplier ≤ 4) ∧
    (tick dsNormal ScoreValues.mkDefault Event.pelletExpire
        sessionActive).score.ghost_combo_multiplier = 1 :=
  ⟨combo_range_and_reset_on_deactivation.1 sessionActive (by decide),
    combo_range_and_reset_on_deactivation.2 dsNormal ScoreValues.mkDefault
      Event.pelletExpire sessionActive (by decide) (by decide)⟩

/-- C8: the default score values are dot_points 10 and ghost_base_points
200; with them a tick that eats a dot raises the score by 10, and the second
ghost eaten in one activation (combo 1 at the first eat) scores 400. -/
theorem default_score_values_behavior :
    ScoreValues.mkDefault.dot_points = 10 ∧
    ScoreValues.mkDefault.ghost_base_points = 200 ∧
    (∀ (ds : DifficultySettings) (s : GameSession), 0 < s.remaining_dots →
      (tick ds ScoreValues.mkDefault Event.eatDot s).score.current_score =
        s.score.current_score + 10) ∧
    (∀ (ds : DifficultySettings) (s : GameSession),
      s.power_pellet_effect.is_active = true →
      s.score.ghost_combo_multiplier = 1 →
      (tick ds ScoreValues.mkDefault Event.eatGhost
          (tick ds ScoreValues.mkDefault Event.eatGhost s)).score.current_score =
        (tick ds ScoreValues.mkDefault Event.eatGhost s).score.current_score + 400) := by
  refine ⟨rfl, rfl, ?_, ?_⟩
  · intro ds s h
    simp [tick, h, ScoreValues.mkDefault]
  · intro ds s h1 h2
    simp [tick, h1, h2, ghostEatScore, ScoreValues.mkDefault]

/-- C8 witness: one dot eaten from the fresh session scores 10, and the
second ghost eaten in the concrete activation scores 400. -/
theorem default_score_values_behavior_witness :
    (tick dsNormal ScoreValues.mkDefault Event.eatDot
        (createSession maze0 dsNormal)).score.current_score =
      (createSession maze0 dsNormal).score.current_score + 10 ∧
    (tick dsNormal ScoreValues.mkDefault Event.eatGhost
        (tick dsNormal ScoreValues.mkDefault Event.eatGhost
          sessionActive)).score.current_score =
      (tick dsNormal ScoreValues.mkDefault Event.eatGhost
        sessionActive).score.current_score + 400 :=
  ⟨default_score_values_behavior.2.2.1 dsNormal (createSession maze0 dsNormal) (by decide),
    default_score_values_behavior.2.2.2 dsNormal sessionActive (by decide) (by decide)⟩

end Pacman
